import Mathlib

/-!
Verification of `snapcraft/internal/meta/command.py`: the component that
finalizes application command entry points (shebang handling, path
resolution against the staged "prime" directory, wrapper generation).

The filesystem, the injected binary-directory list, the `os.walk`
enumeration and the host `PATH` search (`shutil.which`) are modelled as an
abstract environment `Env`; all functions of the source file are embedded
as pure Lean functions over `Env`.  Exceptions raised by the Python code
(including `IndexError` from unguarded `[0]` indexing and `ValueError`
from `shlex`) are modelled with `Except CmdError`.  `logger.warning`
calls are modelled as an ordered list of `Warning` events.
-/

/-! ## Python string primitives (structural, kernel-computable) -/

/-- `a.isPrefixOf b` on character lists, written structurally so that it
reduces in the kernel. -/
def charListIsPre : List Char → List Char → Bool
  | [], _ => true
  | _ :: _, [] => false
  | a :: as, b :: bs => a == b && charListIsPre as bs

/-- Python `str.startswith`. -/
def pyStartsWith (s pre : String) : Bool :=
  charListIsPre pre.data s.data

/-- Python slicing `s[n:]` (drop the first `n` characters). -/
def pyDropChars (s : String) (n : Nat) : String :=
  String.mk (s.data.drop n)

/-- Python slicing `s[:n]` (take the first `n` characters). -/
def pyTakeChars (s : String) (n : Nat) : String :=
  String.mk (s.data.take n)

/-- Last character of a string, if any. -/
def lastChar (s : String) : Option Char :=
  s.data.getLast?

/-- Drop the last character of a string. -/
def dropLastChar (s : String) : String :=
  String.mk s.data.dropLast

/-- The characters stripped by Python `bytes.strip()` / `str.strip()`. -/
def isPySpace (c : Char) : Bool :=
  c == ' ' || c == '\t' || c == '\n' || c == '\r' || c == '\x0b' || c == '\x0c'

/-- Python `str.strip()`. -/
def pyStrip (s : String) : String :=
  String.mk (((s.data.dropWhile isPySpace).reverse.dropWhile isPySpace).reverse)

/-- The part of `s` before the first newline (what remains of the first
line once `readline`'s trailing newline is stripped away). -/
def firstLine (s : String) : String :=
  String.mk (s.data.takeWhile (fun c => c != '\n'))

/-- Python `os.path.join(a, b)` for POSIX paths. -/
def pyJoin (a b : String) : String :=
  if pyStartsWith b "/" then b
  else if a = "" || lastChar a == some '/' then a ++ b
  else a ++ "/" ++ b

/-- Split a path on `/`, keeping only nonempty components (this is how
`posixpath.relpath` decomposes already-normalized absolute paths). -/
def slashComponentsAux : List Char → List Char → List String
  | [], acc => [String.mk acc.reverse]
  | c :: rest, acc =>
    if c = '/' then String.mk acc.reverse :: slashComponentsAux rest []
    else slashComponentsAux rest (c :: acc)

def slashComponents (p : String) : List String :=
  (slashComponentsAux p.data []).filter (fun s => s ≠ "")

def commonLen : List String → List String → Nat
  | a :: as, b :: bs => if a = b then commonLen as bs + 1 else 0
  | _, _ => 0

/-- Python `os.path.relpath(path, start)` for normalized absolute POSIX
paths (the only inputs the source feeds it). -/
def pyRelpath (path start : String) : String :=
  let pl := slashComponents path
  let sl := slashComponents start
  let i := commonLen pl sl
  let rel := List.replicate (sl.length - i) ".." ++ pl.drop i
  if rel = [] then "." else String.intercalate "/" rel

/-! ## `shlex.split` (whitespace_split, no comments, no punctuation chars)

A faithful state machine for CPython's `shlex` in the exact configuration
used by `shlex.split(s, posix)`: `whitespace_split = True`,
`commenters = ""`, `punctuation_chars = ""`, quotes `'` and `"`, escape
`\` (posix only), `escapedquotes = '"'`.  `none` models the `ValueError`
raised on an unclosed quotation or a trailing escape character. -/

def shlexWhite (c : Char) : Bool :=
  c == ' ' || c == '\t' || c == '\r' || c == '\n'

def shlexQuoteChar (c : Char) : Bool :=
  c == '\'' || c == '"'

inductive ShState
  /-- shlex state `' '` (between tokens). -/
  | between
  /-- shlex state `'a'` (inside a word). -/
  | word
  /-- inside a quoted region opened by `q`. -/
  | quoted (q : Char)
  /-- after an escape character; `ret = some q` when the escape occurred
  inside the `q`-quoted region, `none` when it occurred in a word. -/
  | escaped (ret : Option Char)

/-- One `read_token` loop, fused over the whole input.  `tok` is the
token built so far, `quo` the `quoted` flag, `acc` the emitted tokens in
reverse order. -/
def shlexRun (posix : Bool) : List Char → ShState → List Char → Bool → List String →
    Option (List String)
  | [], st, tok, quo, acc =>
    match st with
    | .between => some acc.reverse
    | .word =>
      if tok ≠ [] || (posix && quo) then some (acc.reverse ++ [String.mk tok]) else some acc.reverse
    | .quoted _ => none
    | .escaped _ => none
  | c :: rest, st, tok, quo, acc =>
    match st with
    | .between =>
      if shlexWhite c then
        if tok ≠ [] || (posix && quo) then
          shlexRun posix rest .between [] false (String.mk tok :: acc)
        else shlexRun posix rest .between tok quo acc
      else if posix && c == '\\' then
        shlexRun posix rest (.escaped none) tok quo acc
      else if shlexQuoteChar c then
        shlexRun posix rest (.quoted c) (if posix then tok else tok ++ [c]) true acc
      else
        shlexRun posix rest .word (tok ++ [c]) quo acc
    | .word =>
      if shlexWhite c then
        if tok ≠ [] || (posix && quo) then
          shlexRun posix rest .between [] false (String.mk tok :: acc)
        else shlexRun posix rest .between tok quo acc
      else if posix && shlexQuoteChar c then
        shlexRun posix rest (.quoted c) tok true acc
      else if posix && c == '\\' then
        shlexRun posix rest (.escaped none) tok quo acc
      else
        shlexRun posix rest .word (tok ++ [c]) quo acc
    | .quoted q =>
      if c == q then
        if posix then shlexRun posix rest .word tok quo acc
        else shlexRun posix rest .between [] false (String.mk (tok ++ [c]) :: acc)
      else if posix && c == '\\' && q == '"' then
        shlexRun posix rest (.escaped (some q)) tok quo acc
      else
        shlexRun posix rest (.quoted q) (tok ++ [c]) quo acc
    | .escaped ret =>
      let tok' :=
        match ret with
        | some q => if c != '\\' && c != q then tok ++ ['\\', c] else tok ++ [c]
        | none => tok ++ [c]
      match ret with
      | some q => shlexRun posix rest (.quoted q) tok' quo acc
      | none => shlexRun posix rest .word tok' quo acc

/-- `shlex.split(s, posix=posix)` with the configuration noted above. -/
def shlexSplit (posix : Bool) (s : String) : Option (List String) :=
  shlexRun posix s.data .between [] false []

/-! ## `_COMMAND_PATTERN` -/

/-- First character class of `_COMMAND_PATTERN`: `[A-Za-z0-9. _#:$-]`. -/
def firstClassChar (c : Char) : Bool :=
  c.isAlpha || c.isDigit || c == '.' || c == ' ' || c == '_' || c == '#' ||
    c == ':' || c == '$' || c == '-'

/-- Subsequent character class of `_COMMAND_PATTERN`: `[A-Za-z0-9/. _#:$-]`. -/
def restClassChar (c : Char) : Bool :=
  firstClassChar c || c == '/'

/-- Matcher for `[A-Za-z0-9/. _#:$-]*$` under Python `re` semantics: `$`
matches at the end of the string or just before one trailing newline. -/
def restMatch : List Char → Bool
  | [] => true
  | [c] => c == '\n' || restClassChar c
  | c :: c2 :: cs => restClassChar c && restMatch (c2 :: cs)

/-- `_COMMAND_PATTERN.match(s)` is truthy.  The pattern is
`^[A-Za-z0-9. _#:$-][A-Za-z0-9/. _#:$-]*$`; note the Python-`re` quirk
that `$` also matches just before a trailing newline. -/
def commandPatternMatch (s : String) : Bool :=
  match s.data with
  | [] => false
  | c :: cs => firstClassChar c && restMatch cs

/-! ## Environment: filesystem, injected bin dirs, walk order, host PATH -/

structure Env where
  /-- `os.path.exists`. -/
  pathExists : String → Bool
  /-- `_executable_is_valid` (ExecutableProbe; code lives outside this
  file): path exists, is a regular file, and has an execute bit. -/
  executableIsValid : String → Bool
  /-- Bytes of a file, decoded; `""` for an unreadable path (each caller
  guards reads with `pathExists`). -/
  fileContent : String → String
  /-- `common.get_bin_paths(root)` (code lives outside this file): the
  ordered known binary directories derived from `root`. -/
  bin_paths : String → List String
  /-- The directories yielded (in order, as `root`) by `os.walk`. -/
  walk_dirs : String → List String
  /-- `shutil.which`: host executable-search-path resolution. -/
  which : String → Option String

/-! ## Errors and warnings -/

inductive CmdError
  /-- `errors.PrimedCommandNotFoundError(command)`. -/
  | primedCommandNotFound (command : String)
  /-- `errors.InvalidAppCommandFormatError(command, app_name)`. -/
  | invalidAppCommandFormat (command app_name : String)
  /-- `errors.InvalidAppCommandNotExecutable(command, app_name)`. -/
  | invalidAppCommandNotExecutable (command app_name : String)
  /-- Python `IndexError` from an unguarded `[0]` on an empty list. -/
  | indexError
  /-- Python `ValueError` raised by `shlex` on malformed quoting. -/
  | valueError
deriving DecidableEq, Repr

inductive Warning
  /-- "Unable to find interpreter in any paths: ..." (the source logs a
  literal, non-interpolated message here). -/
  | unableToFindInterpreter
  /-- "The interpreter {interp} for {command} was resolved to {found}." -/
  | interpreterResolved (interp command found : String)
  /-- "The command {command} was not found in the prime directory, but
  found {found}." -/
  | commandResolvedAfterSearch (command found : String)
  /-- "Found unneeded '$SNAP/' in command {command}." -/
  | unneededSnap (command : String)
  /-- "The command {old} has been changed to {new} to safely account for
  the interpreter." -/
  | commandChangedForInterp (old new : String)
  /-- "The command {old} has been changed to {new}." -/
  | commandChanged (old new : String)
  /-- `_FMT_SNAPD_WRAPPER.format(command)`. -/
  | snapdWrapperGenerated (command : String)
deriving DecidableEq, Repr

/-! ## The module functions -/

/-- `_get_shebang_from_file`: read two bytes; on `#!`, the rest of the
first line, stripped. -/
def _get_shebang_from_file (env : Env) (file_path : String) : Option String :=
  let content := env.fileContent file_path
  if pyTakeChars content 2 = "#!" then
    some (pyStrip (firstLine (pyDropChars content 2)))
  else none

/-- The two `for` loops of `_find_executable`: first directory whose
`<dir>/<command>` probes as a valid executable. -/
def firstValidIn (env : Env) (dirs : List String) (command : String) : Option String :=
  match dirs with
  | [] => none
  | p :: rest =>
    if env.executableIsValid (pyJoin p command) then some (pyJoin p command)
    else firstValidIn env rest command

/-- `_find_executable`. -/
def _find_executable (env : Env) (command prime_dir : String) : Option String :=
  match firstValidIn env (env.bin_paths prime_dir) command with
  | some p => some p
  | none =>
    match firstValidIn env (env.walk_dirs prime_dir) command with
    | some p => some p
    | none => env.which command

/-- `_strip_command_leaders`: one leading `/`, then one leading `$SNAP/`. -/
def _strip_command_leaders (command : String) : String :=
  let command := if pyStartsWith command "/" then pyDropChars command 1 else command
  if pyStartsWith command "$SNAP/" then pyDropChars command 6 else command

/-- `_resolve_snap_command_path`. -/
def _resolve_snap_command_path (env : Env) (command prime_dir : String) :
    Option String × Bool :=
  let command := _strip_command_leaders command
  if env.pathExists (pyJoin prime_dir command) then (some command, false)
  else
    match _find_executable env command prime_dir with
    | none => (none, true)
    | some found_command =>
      if pyStartsWith found_command prime_dir then
        (some (pyRelpath found_command prime_dir), true)
      else (some found_command, true)

/-- `_split_command`. -/
def _split_command (env : Env) (command prime_dir : String) :
    Except CmdError (List String × List String) :=
  match shlexSplit false command with
  | none => .error .valueError
  | some [] => .error .indexError
  | some (c0 :: rest) =>
    let command_path := pyJoin prime_dir (_strip_command_leaders c0)
    let shebang_parts : Except CmdError (List String) :=
      if env.pathExists command_path then
        match _get_shebang_from_file env command_path with
        | some shebang =>
          if shebang ≠ "" then
            match shlexSplit false shebang with
            | none => .error .valueError
            | some l => .ok l
          else .ok []
        | none => .ok []
      else .ok []
    match shebang_parts with
    | .error e => .error e
    | .ok sp => .ok (sp, c0 :: rest)

/-- `_resolve_interpreter_parts`. -/
def _resolve_interpreter_parts (env : Env) (shebang_parts command_parts : List String)
    (prime_dir : String) : Except CmdError (List String × List Warning) :=
  match shebang_parts with
  | [] => .error .indexError
  | s0 :: srest =>
    let resolved_parts := if s0 = "/usr/bin/env" then srest else s0 :: srest
    match resolved_parts with
    | [] => .error .indexError
    | i0 :: irest =>
      match _resolve_snap_command_path env i0 prime_dir with
      | (none, _) => .ok (i0 :: irest, [Warning.unableToFindInterpreter])
      | (some ri, search_required) =>
        if search_required then
          match command_parts with
          | [] => .error .indexError
          | c0 :: _ => .ok (ri :: irest, [Warning.interpreterResolved i0 c0 ri])
        else .ok (ri :: irest, [])

/-- `_resolve_command_parts`. -/
def _resolve_command_parts (env : Env) (command_parts : List String)
    (interpreted_command : Bool) (prime_dir : String) :
    Except CmdError (List String × List Warning) :=
  match command_parts with
  | [] => .error .indexError
  | c0 :: rest =>
    match _resolve_snap_command_path env c0 prime_dir with
    | (none, _) => .error (.primedCommandNotFound c0)
    | (some rc, search_required) =>
      let warns := if search_required then [Warning.commandResolvedAfterSearch c0 rc] else []
      let rc' :=
        if interpreted_command && rc != "" && !pyStartsWith rc "/" then pyJoin "$SNAP" rc
        else rc
      .ok (rc' :: rest, warns)

/-- `_massage_command`. -/
def _massage_command (env : Env) (command prime_dir : String) :
    Except CmdError (String × List Warning) :=
  if pyStartsWith command "/" then .ok (command, [])
  else
    let stripped := if pyStartsWith command "$SNAP/" then pyDropChars command 6 else command
    match _split_command env stripped prime_dir with
    | .error e => .error e
    | .ok (shebang_parts, command_parts) =>
      match
        (if shebang_parts.isEmpty then
           Except.ok (([] : List String), false, ([] : List Warning))
         else
           match _resolve_interpreter_parts env shebang_parts command_parts prime_dir with
           | .error e => .error e
           | .ok (sp, w) => .ok (sp, true, w)) with
      | .error e => .error e
      | .ok (shebang_parts, interpreted_command, warns1) =>
        match _resolve_command_parts env command_parts interpreted_command prime_dir with
        | .error e => .error e
        | .ok (resolved_parts, warns2) =>
          let massaged_command := String.intercalate " " (shebang_parts ++ resolved_parts)
          let warns3 :=
            if massaged_command ≠ command then
              (if pyStartsWith command "$SNAP/" then [Warning.unneededSnap command] else []) ++
                (if interpreted_command then
                   [Warning.commandChangedForInterp command massaged_command]
                 else [Warning.commandChanged command massaged_command])
            else []
          .ok (massaged_command, warns1 ++ warns2 ++ warns3)

/-! ## The `Command` class -/

structure Command where
  app_name : String
  command_name : String
  command : String
  wrapped_command : Option String := none
  massaged_command : Option String := none
deriving DecidableEq, Repr

/-- `Command.requires_wrapper`. -/
def Command.requires_wrapper (c : Command) : Bool :=
  let command := match c.wrapped_command with | some w => w | none => c.command
  pyStartsWith command "/" || !commandPatternMatch command

/-- `Command.wrapped_command_name`: `"<command_name>-<app_name>.wrapper"`. -/
def Command.wrapped_command_name (c : Command) : String :=
  c.command_name ++ "-" ++ c.app_name ++ ".wrapper"

/-- `Command.prime_command`.  Returns the finalized public command text,
the updated object state, and the warnings logged, or the raised error. -/
def Command.prime_command (env : Env) (c : Command) (can_use_wrapper : Bool)
    (massage_command : Bool) (prime_dir : String) :
    Except CmdError (String × Command × List Warning) :=
  match
    (if massage_command then
       match _massage_command env c.command prime_dir with
       | .error e => .error e
       | .ok (m, w) => .ok ({ c with command := m }, w)
     else Except.ok (c, ([] : List Warning))) with
  | .error e => .error e
  | .ok (c, warns1) =>
    if c.requires_wrapper then
      if !can_use_wrapper then .error (.invalidAppCommandFormat c.command c.app_name)
      else
        let warns2 :=
          if !commandPatternMatch c.command then [Warning.snapdWrapperGenerated c.command]
          else []
        let c' := { c with wrapped_command := some c.command,
                           command := c.wrapped_command_name }
        .ok (c'.command, c', warns1 ++ warns2)
    else
      match shlexSplit true c.command with
      | none => .error .valueError
      | some [] => .error .indexError
      | some (t0 :: _) =>
        if !env.executableIsValid (pyJoin prime_dir t0) then
          .error (.invalidAppCommandNotExecutable c.command c.app_name)
        else .ok (c.command, c, warns1)

/-- `Command.write_wrapper`: the path written, the exact file content,
and the `chmod` mode (0o755), or `none` when no wrapper is required. -/
def Command.write_wrapper (c : Command) (prime_dir : String) :
    Option (String × String × Nat) :=
  match c.wrapped_command with
  | none => none
  | some wc =>
    let command_wrapper := pyJoin prime_dir c.wrapped_command_name
    let command := if pyStartsWith wc "/" then wc else pyJoin "$SNAP" wc
    let content := "#!/bin/sh" ++ "\n" ++ "exec " ++ command ++ " \"$@\"" ++ "\n"
    some (command_wrapper, content, 493)

/-! ## Claim C1: `requires_wrapper` versus the spec grammar -/

/-- GrammarValidator as the spec words it: the first character is in
`[A-Za-z0-9. _#:$-]` and every subsequent character is in
`[A-Za-z0-9/. _#:$-]`. -/
def grammarValidSpec (s : String) : Bool :=
  match s.data with
  | [] => false
  | c :: cs => firstClassChar c && cs.all restClassChar

/-- Does a character list end in a newline? -/
def lastIsNewline : List Char → Bool
  | [] => false
  | [c] => c == '\n'
  | _ :: c2 :: cs => lastIsNewline (c2 :: cs)

theorem restMatch_eq (cs : List Char) :
    restMatch cs
      = (cs.all restClassChar || (lastIsNewline cs && cs.dropLast.all restClassChar)) := by
  induction cs with
  | nil => rfl
  | cons c cs ih =>
    cases cs with
    | nil =>
      simp only [restMatch, lastIsNewline, List.dropLast_single, List.all_nil, List.all_cons,
        Bool.and_true]
      cases hc : c == '\n' <;> cases hr : restClassChar c <;> simp
    | cons c2 cs2 =>
      simp only [restMatch, lastIsNewline, List.all_cons, List.dropLast_cons₂, ih]
      cases restClassChar c <;> simp

/-- The source pattern accepts exactly the spec-grammar-valid strings plus
those that become spec-grammar-valid after removing one trailing newline
(`$` in Python `re` matches before a final newline). -/
theorem commandPatternMatch_eq (s : String) :
    commandPatternMatch s
      = (grammarValidSpec s || (lastIsNewline s.data && grammarValidSpec (dropLastChar s))) := by
  rcases s with ⟨cs⟩
  cases cs with
  | nil => rfl
  | cons c cs =>
    show (firstClassChar c && restMatch cs)
      = ((firstClassChar c && cs.all restClassChar) ||
          (lastIsNewline (c :: cs) && grammarValidSpec (dropLastChar ⟨c :: cs⟩)))
    cases cs with
    | nil =>
      cases hc : c == '\n' <;> cases hf : firstClassChar c <;>
        simp [restMatch, lastIsNewline, dropLastChar, grammarValidSpec, hc, hf]
    | cons c2 cs2 =>
      rw [restMatch_eq]
      show _ = (_ || (lastIsNewline (c2 :: cs2) &&
        grammarValidSpec ⟨c :: (c2 :: cs2).dropLast⟩))
      show _ = (_ || (lastIsNewline (c2 :: cs2) &&
        (firstClassChar c && ((c2 :: cs2).dropLast.all restClassChar))))
      cases firstClassChar c <;> simp

/-- C1 counterexample: `"foo\n"` fails the spec's grammar and does not
start with `/`, yet the code's `requires_wrapper` is `false` (the Python
regex `$` matches before a trailing newline). -/
theorem requires_wrapper_trailing_newline_cex :
    Command.requires_wrapper ⟨"a", "n", "foo\n", none, none⟩ = false
    ∧ pyStartsWith "foo\n" "/" = false
    ∧ grammarValidSpec "foo\n" = false := by
  decide

/-- C1 (amended): with no wrapped-command recorded, `requires_wrapper`
holds iff the string starts with `/` or fails the grammar, where the
grammar additionally accepts a string whose final character is a newline
and whose remainder satisfies the character-class grammar; the spec's
examples hold as stated. -/
theorem requires_wrapper_grammar_amended : ∀ app cn s : String,
    (Command.requires_wrapper ⟨app, cn, s, none, none⟩
      = (pyStartsWith s "/" ||
          !(grammarValidSpec s || (lastIsNewline s.data && grammarValidSpec (dropLastChar s)))))
    ∧ grammarValidSpec "foo.bar_1:2$-3" = true
    ∧ (∀ t : String, '&' ∈ t.data → grammarValidSpec t = false)
    ∧ (∀ t : String, '*' ∈ t.data → grammarValidSpec t = false)
    ∧ (pyStartsWith s "/" = true → Command.requires_wrapper ⟨app, cn, s, none, none⟩ = true) := by
  intro app cn s
  refine ⟨?_, by decide, ?_, ?_, ?_⟩
  · show (pyStartsWith s "/" || !commandPatternMatch s) = _
    rw [commandPatternMatch_eq]
  · intro t ht
    rcases t with ⟨cs⟩
    cases cs with
    | nil => simp at ht
    | cons c cs =>
      show (firstClassChar c && cs.all restClassChar) = false
      rcases List.mem_cons.mp ht with rfl | hmem
      · have h : firstClassChar '&' = false := by decide
        rw [h, Bool.false_and]
      · have h : cs.all restClassChar = false := by
          by_contra hall
          rw [Bool.not_eq_false] at hall
          exact absurd (List.all_eq_true.mp hall '&' hmem) (by decide)
        rw [h, Bool.and_false]
  · intro t ht
    rcases t with ⟨cs⟩
    cases cs with
    | nil => simp at ht
    | cons c cs =>
      show (firstClassChar c && cs.all restClassChar) = false
      rcases List.mem_cons.mp ht with rfl | hmem
      · have h : firstClassChar '*' = false := by decide
        rw [h, Bool.false_and]
      · have h : cs.all restClassChar = false := by
          by_contra hall
          rw [Bool.not_eq_false] at hall
          exact absurd (List.all_eq_true.mp hall '*' hmem) (by decide)
        rw [h, Bool.and_false]
  · intro hs
    show (pyStartsWith s "/" || !commandPatternMatch s) = true
    rw [hs, Bool.true_or]

theorem requires_wrapper_grammar_amended_witness :
    Command.requires_wrapper ⟨"a", "n", "/x", none, none⟩ = true
    ∧ grammarValidSpec "foo.bar_1:2$-3" = true
    ∧ grammarValidSpec "a&b" = false
    ∧ grammarValidSpec "a*b" = false :=
  ⟨(requires_wrapper_grammar_amended "a" "n" "/x").2.2.2.2 (by decide),
   (requires_wrapper_grammar_amended "a" "n" "/x").2.1,
   (requires_wrapper_grammar_amended "a" "n" "/x").2.2.1 "a&b" (by decide),
   (requires_wrapper_grammar_amended "a" "n" "/x").2.2.2.1 "a*b" (by decide)⟩

/-! ## Claim C2: `_resolve_snap_command_path` -/

/-- C2 amended characterization of PathResolver: leaders are stripped,
literal existence short-circuits with `search-required = false`;
otherwise the locator result is returned with `search-required = true`,
made root-relative exactly when the found path is a *string-prefix*
extension of the staged root (not merely when it lies under it). -/
theorem resolve_snap_command_path_amended : ∀ (env : Env) (command prime_dir : String),
    (env.pathExists (pyJoin prime_dir (_strip_command_leaders command)) = true →
      _resolve_snap_command_path env command prime_dir
        = (some (_strip_command_leaders command), false))
    ∧ (env.pathExists (pyJoin prime_dir (_strip_command_leaders command)) = false →
        _find_executable env (_strip_command_leaders command) prime_dir = none →
        _resolve_snap_command_path env command prime_dir = (none, true))
    ∧ (∀ f : String,
        env.pathExists (pyJoin prime_dir (_strip_command_leaders command)) = false →
        _find_executable env (_strip_command_leaders command) prime_dir = some f →
        pyStartsWith f prime_dir = true →
        _resolve_snap_command_path env command prime_dir = (some (pyRelpath f prime_dir), true))
    ∧ (∀ f : String,
        env.pathExists (pyJoin prime_dir (_strip_command_leaders command)) = false →
        _find_executable env (_strip_command_leaders command) prime_dir = some f →
        pyStartsWith f prime_dir = false →
        _resolve_snap_command_path env command prime_dir = (some f, true)) := by
  intro env command prime_dir
  refine ⟨?_, ?_, ?_, ?_⟩
  · intro h
    simp [_resolve_snap_command_path, h]
  · intro h hf
    simp [_resolve_snap_command_path, h, hf]
  · intro f h hf hpre
    simp [_resolve_snap_command_path, h, hf, hpre]
  · intro f h hf hpre
    simp [_resolve_snap_command_path, h, hf, hpre]

def envC2 : Env where
  pathExists := fun _ => false
  executableIsValid := fun _ => false
  fileContent := fun _ => ""
  bin_paths := fun _ => []
  walk_dirs := fun _ => []
  which := fun c => if c == "tool" then some "/pq/x" else none

/-- C2 counterexample: the locator match `/pq/x` does not lie under the
staged root `/p` (it is neither `/p` itself nor below `/p/`), so the
claim requires the absolute host path `/pq/x` to be returned; the code
instead treats it as root-prefixed (string `startswith`) and returns the
relative path `../pq/x`. -/
theorem resolve_snap_command_path_lies_under_cex :
    _resolve_snap_command_path envC2 "tool" "/p" = (some "../pq/x", true)
    ∧ pyStartsWith "/pq/x" "/p/" = false
    ∧ "/pq/x" ≠ "/p"
    ∧ "../pq/x" ≠ "/pq/x" := by
  decide

def envC2w : Env where
  pathExists := fun _ => true
  executableIsValid := fun _ => false
  fileContent := fun _ => ""
  bin_paths := fun _ => []
  walk_dirs := fun _ => []
  which := fun _ => none

theorem resolve_snap_command_path_amended_witness :
    envC2w.pathExists (pyJoin "/p" (_strip_command_leaders "/$SNAP/foo")) = true
    ∧ _resolve_snap_command_path envC2w "/$SNAP/foo" "/p" = (some "foo", false) :=
  ⟨by decide, (resolve_snap_command_path_amended envC2w "/$SNAP/foo" "/p").1 (by decide)⟩

/-! ## Claim C3: `_find_executable` -/

/-- ExecutableLocator as the spec words it: the first candidate
`<dir>/<name>` probing as executable, with the known binary directories
(in order) before the recursive walk of the staged root, and the host
search (`which`) as the final fallback. -/
def findExecutableSpec (env : Env) (command prime_dir : String) : Option String :=
  match ((env.bin_paths prime_dir ++ env.walk_dirs prime_dir).map
      (fun p => pyJoin p command)).filter env.executableIsValid with
  | x :: _ => some x
  | [] => env.which command

theorem firstValidIn_eq_head (env : Env) (dirs : List String) (command : String) :
    firstValidIn env dirs command
      = ((dirs.map (fun p => pyJoin p command)).filter env.executableIsValid).head? := by
  induction dirs with
  | nil => rfl
  | cons d ds ih =>
    simp only [firstValidIn, List.map_cons, List.filter_cons]
    cases h : env.executableIsValid (pyJoin d command) <;> simp [h, ih]

theorem firstValidIn_eq_none_iff (env : Env) (dirs : List String) (command : String) :
    firstValidIn env dirs command = none
      ↔ ∀ p ∈ dirs, env.executableIsValid (pyJoin p command) = false := by
  induction dirs with
  | nil => simp [firstValidIn]
  | cons d ds ih =>
    simp only [firstValidIn]
    cases h : env.executableIsValid (pyJoin d command) with
    | false => simp [h, ih]
    | true => simp [h]

/-- C3: the locator returns the first match in the order (1) known binary
directories, (2) walked staged-tree directories, (3) host search path,
and returns absence exactly when all three strategies fail. -/
theorem find_executable_first_match : ∀ (env : Env) (command prime_dir : String),
    _find_executable env command prime_dir = findExecutableSpec env command prime_dir
    ∧ (_find_executable env command prime_dir = none ↔
        ((∀ p ∈ env.bin_paths prime_dir, env.executableIsValid (pyJoin p command) = false)
          ∧ (∀ p ∈ env.walk_dirs prime_dir, env.executableIsValid (pyJoin p command) = false)
          ∧ env.which command = none)) := by
  intro env command prime_dir
  constructor
  · unfold _find_executable findExecutableSpec
    rw [firstValidIn_eq_head, firstValidIn_eq_head, List.map_append, List.filter_append]
    cases h1 : ((env.bin_paths prime_dir).map (fun p => pyJoin p command)).filter
        env.executableIsValid with
    | nil =>
      simp only [h1, List.nil_append, List.head?_nil]
      cases h2 : ((env.walk_dirs prime_dir).map (fun p => pyJoin p command)).filter
          env.executableIsValid with
      | nil => simp
      | cons x xs => simp
    | cons x xs => simp
  · unfold _find_executable
    cases h1 : firstValidIn env (env.bin_paths prime_dir) command with
    | some x =>
      simp only [h1]
      constructor
      · intro hc; exact absurd hc (by simp)
      · rintro ⟨hb, _, _⟩
        rw [(firstValidIn_eq_none_iff env _ command).mpr hb] at h1
        cases h1
    | none =>
      simp only [h1]
      cases h2 : firstValidIn env (env.walk_dirs prime_dir) command with
      | some x =>
        simp only [h2]
        constructor
        · intro hc; exact absurd hc (by simp)
        · rintro ⟨_, hw, _⟩
          rw [(firstValidIn_eq_none_iff env _ command).mpr hw] at h2
          cases h2
      | none =>
        simp only [h2]
        constructor
        · intro hh
          exact ⟨(firstValidIn_eq_none_iff env _ command).mp h1,
            (firstValidIn_eq_none_iff env _ command).mp h2, hh⟩
        · rintro ⟨_, _, hh⟩
          exact hh

def envC3 : Env where
  pathExists := fun _ => false
  executableIsValid := fun p => p == "/p/bin/foo"
  fileContent := fun _ => ""
  bin_paths := fun r => [pyJoin r "bin"]
  walk_dirs := fun _ => []
  which := fun _ => none

theorem find_executable_first_match_witness :
    _find_executable envC3 "foo" "/p" = findExecutableSpec envC3 "foo" "/p"
    ∧ _find_executable envC3 "bar" "/p" = none :=
  ⟨(find_executable_first_match envC3 "foo" "/p").1,
   (find_executable_first_match envC3 "bar" "/p").2.mpr ⟨by decide, by decide, rfl⟩⟩

/-! ## Claim C4: shebang interpreter resolution scenario -/

/-- Environment of the spec's scenario: the staged tree holds
`bin/run` whose first line is `#!/usr/bin/env widget-lang`, `bin` is a
known binary directory, and `widget-lang` is resolvable only via the
host search path. -/
def envC4 : Env where
  pathExists := fun p => p == "/prime/bin/run"
  executableIsValid := fun p => p == "/prime/bin/run" || p == "/usr/local/bin/widget-lang"
  fileContent := fun p =>
    if p == "/prime/bin/run" then "#!/usr/bin/env widget-lang\nbody\n" else ""
  bin_paths := fun r => [pyJoin r "bin"]
  walk_dirs := fun r => [r, pyJoin r "bin"]
  which := fun c => if c == "widget-lang" then some "/usr/local/bin/widget-lang" else none

/-- C4 counterexample: normalizing the command `"run"` in that
environment never inspects the shebang (the first token `run` does not
exist literally at `<root>/run`, and `_split_command` reads the shebang
before any resolution), so the result is `"bin/run"` — not
`"/usr/local/bin/widget-lang bin/run"` as the claim states. -/
theorem massage_shebang_run_cex :
    _massage_command envC4 "run" "/prime"
      = .ok ("bin/run",
          [Warning.commandResolvedAfterSearch "run" "bin/run",
           Warning.commandChanged "run" "bin/run"])
    ∧ "bin/run" ≠ "/usr/local/bin/widget-lang bin/run" :=
  ⟨rfl, by decide⟩

/-- C4 (amended): the command must name the file's staged location
(`"bin/run"`) for the shebang to be inspected, and the rewritten command
path gains the `$SNAP/` prefix; the interpreter, found via host search,
is prepended and the found-by-search warning is logged. -/
theorem massage_shebang_binrun_amended :
    _massage_command envC4 "bin/run" "/prime"
      = .ok ("/usr/local/bin/widget-lang $SNAP/bin/run",
          [Warning.interpreterResolved "widget-lang" "bin/run" "/usr/local/bin/widget-lang",
           Warning.commandChangedForInterp "bin/run"
             "/usr/local/bin/widget-lang $SNAP/bin/run"]) :=
  rfl


/-! ## Claim C5: `prime_command` wrapper / executability checks -/

theorem prime_command_no_massage (env : Env) (c : Command) (allow : Bool) (prime_dir : String) :
    Command.prime_command env c allow false prime_dir
      = (if c.requires_wrapper then
           if !allow then Except.error (CmdError.invalidAppCommandFormat c.command c.app_name)
           else
             Except.ok (c.wrapped_command_name,
               { c with wrapped_command := some c.command, command := c.wrapped_command_name },
               if !commandPatternMatch c.command then
                 [Warning.snapdWrapperGenerated c.command]
               else [])
         else
           match shlexSplit true c.command with
           | none => .error .valueError
           | some [] => .error .indexError
           | some (t0 :: _) =>
             if !env.executableIsValid (pyJoin prime_dir t0) then
               .error (.invalidAppCommandNotExecutable c.command c.app_name)
             else .ok (c.command, c, [])) := rfl

/-- C5: with massaging disabled (the finalizer's own checks in
isolation), `prime_command` raises invalid-command-format iff a wrapper
is required and disallowed; when no wrapper is required and the command
text has a first shell token, it raises command-not-executable iff that
token is not a valid executable at `<prime_dir>/<token>`, and returns
the (unchanged) command text otherwise; when a wrapper is required and
allowed it returns normally. -/
theorem prime_command_checks : ∀ (env : Env) (c : Command) (allow : Bool) (prime_dir : String),
    ((Command.prime_command env c allow false prime_dir
        = .error (.invalidAppCommandFormat c.command c.app_name))
      ↔ (c.requires_wrapper = true ∧ allow = false))
    ∧ (c.requires_wrapper = false →
        ∀ (t0 : String) (rest : List String), shlexSplit true c.command = some (t0 :: rest) →
          ((Command.prime_command env c allow false prime_dir
              = .error (.invalidAppCommandNotExecutable c.command c.app_name))
            ↔ env.executableIsValid (pyJoin prime_dir t0) = false))
    ∧ (c.requires_wrapper = false →
        ∀ (t0 : String) (rest : List String), shlexSplit true c.command = some (t0 :: rest) →
          env.executableIsValid (pyJoin prime_dir t0) = true →
          Command.prime_command env c allow false prime_dir = .ok (c.command, c, []))
    ∧ (c.requires_wrapper = true → allow = true →
        ∃ r, Command.prime_command env c allow false prime_dir = .ok r) := by
  intro env c allow prime_dir
  rcases Bool.eq_false_or_eq_true c.requires_wrapper with hr | hr
  · refine ⟨?_, ?_, ?_, ?_⟩
    · rw [prime_command_no_massage, hr]
      rcases Bool.eq_false_or_eq_true allow with ha | ha <;> simp [ha]
    · intro hcontra
      rw [hr] at hcontra
      exact Bool.noConfusion hcontra
    · intro hcontra
      rw [hr] at hcontra
      exact Bool.noConfusion hcontra
    · intro _ ha
      subst ha
      exact ⟨_, by rw [prime_command_no_massage, hr]; rfl⟩
  · have hred : Command.prime_command env c allow false prime_dir
        = (match shlexSplit true c.command with
           | none => .error .valueError
           | some [] => .error .indexError
           | some (t0 :: _) =>
             if !env.executableIsValid (pyJoin prime_dir t0) then
               .error (.invalidAppCommandNotExecutable c.command c.app_name)
             else .ok (c.command, c, [])) := by
      rw [prime_command_no_massage, hr]
      simp
    refine ⟨?_, ?_, ?_, ?_⟩
    · rw [hred]
      constructor
      · intro hc
        exfalso
        rcases hsp : shlexSplit true c.command with _ | l
        · rw [hsp] at hc
          simp at hc
        · rcases l with _ | ⟨t0, rest⟩
          · rw [hsp] at hc
            simp at hc
          · rw [hsp] at hc
            rcases Bool.eq_false_or_eq_true (env.executableIsValid (pyJoin prime_dir t0))
              with hex | hex <;> simp [hex] at hc
      · rintro ⟨hcontra, _⟩
        rw [hr] at hcontra
        exact Bool.noConfusion hcontra
    · intro _ t0 rest hsp
      rw [hred, hsp]
      rcases Bool.eq_false_or_eq_true (env.executableIsValid (pyJoin prime_dir t0))
        with hex | hex <;> simp [hex]
    · intro _ t0 rest hsp hex
      rw [hred, hsp]
      simp [hex]
    · intro hcontra _
      rw [hr] at hcontra
      exact Bool.noConfusion hcontra

def envC5 : Env where
  pathExists := fun _ => false
  executableIsValid := fun p => p == "/p/bin/t"
  fileContent := fun _ => ""
  bin_paths := fun _ => []
  walk_dirs := fun _ => []
  which := fun _ => none

def c5ok : Command := { app_name := "app", command_name := "cn", command := "bin/t" }

theorem prime_command_checks_witness :
    c5ok.requires_wrapper = false
    ∧ shlexSplit true c5ok.command = some ["bin/t"]
    ∧ envC5.executableIsValid (pyJoin "/p" "bin/t") = true
    ∧ Command.prime_command envC5 c5ok true false "/p" = .ok (c5ok.command, c5ok, []) :=
  ⟨by decide, by decide, by decide,
   (prime_command_checks envC5 c5ok true "/p").2.2.1 (by decide) "bin/t" []
     (by decide) (by decide)⟩

/-! ## Claim C6: fatal primary-command failure, non-fatal interpreter failure -/

/-- C6: when the resolver finds nothing for the primary command token,
`_resolve_command_parts` raises command-not-found naming that token;
when it finds nothing for the shebang interpreter token,
`_resolve_interpreter_parts` returns normally, keeps the original token
in place, and logs only the unable-to-find warning. -/
theorem resolve_fatal_vs_interpreter_nonfatal : ∀ (env : Env) (prime_dir : String),
    (∀ (c0 : String) (rest : List String) (interp : Bool),
      (_resolve_snap_command_path env c0 prime_dir).1 = none →
      _resolve_command_parts env (c0 :: rest) interp prime_dir
        = .error (.primedCommandNotFound c0))
    ∧ (∀ (s0 i0 : String) (srest irest command_parts : List String),
      (if s0 = "/usr/bin/env" then srest else s0 :: srest) = i0 :: irest →
      (_resolve_snap_command_path env i0 prime_dir).1 = none →
      _resolve_interpreter_parts env (s0 :: srest) command_parts prime_dir
        = .ok (i0 :: irest, [Warning.unableToFindInterpreter])) := by
  intro env prime_dir
  constructor
  · intro c0 rest interp h
    rcases hres : _resolve_snap_command_path env c0 prime_dir with ⟨o, sr⟩
    rw [hres] at h
    simp only at h
    subst h
    simp [_resolve_command_parts, hres]
  · intro s0 i0 srest irest command_parts heq h
    rcases hres : _resolve_snap_command_path env i0 prime_dir with ⟨o, sr⟩
    rw [hres] at h
    simp only at h
    subst h
    simp [_resolve_interpreter_parts, heq, hres]

def envC6 : Env where
  pathExists := fun _ => false
  executableIsValid := fun _ => false
  fileContent := fun _ => ""
  bin_paths := fun _ => []
  walk_dirs := fun _ => []
  which := fun _ => none

theorem resolve_fatal_vs_interpreter_nonfatal_witness :
    (_resolve_snap_command_path envC6 "missing" "/p").1 = none
    ∧ _resolve_command_parts envC6 ["missing"] false "/p"
        = .error (.primedCommandNotFound "missing")
    ∧ _resolve_interpreter_parts envC6 ["/usr/bin/env", "nope"] ["missing"] "/p"
        = .ok (["nope"], [Warning.unableToFindInterpreter]) :=
  ⟨by decide,
   (resolve_fatal_vs_interpreter_nonfatal envC6 "/p").1 "missing" [] false (by decide),
   (resolve_fatal_vs_interpreter_nonfatal envC6 "/p").2 "/usr/bin/env" "nope" ["nope"] []
     ["missing"] (by decide) (by decide)⟩

/-! ## Claim C7: `write_wrapper` -/

theorem stringAppendAssoc (a b c : String) : a ++ b ++ c = a ++ (b ++ c) := by
  rcases a with ⟨la⟩
  rcases b with ⟨lb⟩
  rcases c with ⟨lc⟩
  show String.mk (la ++ lb ++ lc) = String.mk (la ++ (lb ++ lc))
  rw [List.append_assoc]

theorem snap_join (wc : String) (h : pyStartsWith wc "/" = false) :
    pyJoin "$SNAP" wc = "$SNAP/" ++ wc := by
  simp only [pyJoin, h]
  rfl

theorem wrapper_content_eq (cmd : String) :
    "#!/bin/sh" ++ "\n" ++ "exec " ++ cmd ++ " \"$@\"" ++ "\n"
      = "#!/bin/sh\n" ++ "exec " ++ cmd ++ " \"$@\"\n" := by
  rw [show ("#!/bin/sh" ++ "\n" ++ "exec " : String) = "#!/bin/sh\n" ++ "exec " from rfl,
    stringAppendAssoc ("#!/bin/sh\n" ++ "exec " ++ cmd) " \"$@\"" "\n",
    show (" \"$@\"" ++ "\n" : String) = " \"$@\"\n" from rfl]

/-- C7: `write_wrapper` is a no-op when no wrapped-command is recorded;
otherwise it writes `<root>/<wrapper-name>` with exactly the two lines
`#!/bin/sh` and `exec <cmd> "$@"` — `<cmd>` being the wrapped command
verbatim when absolute and `$SNAP/`-prefixed otherwise — with mode
0o755, whose bits grant read and execute to owner, group and other. -/
theorem write_wrapper_spec : ∀ (c : Command) (prime_dir : String),
    (c.wrapped_command = none → Command.write_wrapper c prime_dir = none)
    ∧ (∀ wc : String, c.wrapped_command = some wc →
        Command.write_wrapper c prime_dir
          = some (pyJoin prime_dir c.wrapped_command_name,
              "#!/bin/sh\n" ++ "exec " ++
                (if pyStartsWith wc "/" then wc else "$SNAP/" ++ wc) ++ " \"$@\"\n",
              493))
    ∧ (∀ (p content : String) (mode : Nat),
        Command.write_wrapper c prime_dir = some (p, content, mode) →
          (mode.testBit 0 ∧ mode.testBit 3 ∧ mode.testBit 6
            ∧ mode.testBit 2 ∧ mode.testBit 5 ∧ mode.testBit 8)) := by
  intro c prime_dir
  refine ⟨?_, ?_, ?_⟩
  · intro h
    simp [Command.write_wrapper, h]
  · intro wc h
    simp only [Command.write_wrapper, h]
    rcases Bool.eq_false_or_eq_true (pyStartsWith wc "/") with hw | hw
    · simp only [hw, if_true]
      rw [wrapper_content_eq wc]
    · simp only [hw, Bool.false_eq_true, if_false, snap_join wc hw]
      rw [wrapper_content_eq ("$SNAP/" ++ wc)]
  · intro p content mode h
    rcases hw : c.wrapped_command with _ | wc
    · rw [Command.write_wrapper, hw] at h
      cases h
    · rw [Command.write_wrapper, hw] at h
      simp only [Option.some.injEq, Prod.mk.injEq] at h
      rcases h with ⟨_, _, hm⟩
      rw [← hm]
      refine ⟨by decide, by decide, by decide, by decide, by decide, by decide⟩

def c7w : Command :=
  { app_name := "app", command_name := "run-it", command := "x",
    wrapped_command := some "/opt/tool/bin/run-it" }

theorem write_wrapper_spec_witness :
    c7w.wrapped_command = some "/opt/tool/bin/run-it"
    ∧ Command.write_wrapper c7w "/p"
        = some (pyJoin "/p" c7w.wrapped_command_name,
            "#!/bin/sh\n" ++ "exec " ++
              (if pyStartsWith "/opt/tool/bin/run-it" "/" then "/opt/tool/bin/run-it"
               else "$SNAP/" ++ "/opt/tool/bin/run-it") ++ " \"$@\"\n",
            493)
    ∧ Command.write_wrapper c7w "/p"
        = some ("/p/run-it-app.wrapper", "#!/bin/sh\nexec /opt/tool/bin/run-it \"$@\"\n", 493) :=
  ⟨rfl, (write_wrapper_spec c7w "/p").2.1 "/opt/tool/bin/run-it" rfl, rfl⟩

/-! ## Claim C8: the wrapped-command / command-text invariant -/

def envC8 : Env where
  pathExists := fun _ => false
  executableIsValid := fun p => p == "/prime/bin/epn-app.wrapper"
  fileContent := fun _ => ""
  bin_paths := fun r => [pyJoin r "bin"]
  walk_dirs := fun _ => []
  which := fun _ => none

def c8a : Command := { app_name := "app", command_name := "epn", command := "/abs/x" }

def c8b : Command :=
  { app_name := "app", command_name := "epn", command := "epn-app.wrapper",
    wrapped_command := some "/abs/x" }

def c8c : Command :=
  { app_name := "app", command_name := "epn", command := "epn-app.wrapper",
    wrapped_command := some "bin/epn-app.wrapper" }

def c8d : Command :=
  { app_name := "app", command_name := "epn", command := "bin/epn-app.wrapper",
    wrapped_command := some "bin/epn-app.wrapper" }

/-- C8 counterexample: a sequence of three finalize calls on one entry
point ends in a state whose wrapped-command is non-empty while the
current command text is `"bin/epn-app.wrapper"`, not the wrapper file
name `"epn-app.wrapper"` (the second call overwrites wrapped-command
with a grammar-valid massaged value, so the third call takes the
non-wrapper branch and leaves the massaged text in place). -/
theorem wrapped_invariant_cex :
    Command.prime_command envC8 c8a true true "/prime"
      = .ok ("epn-app.wrapper", c8b, [Warning.snapdWrapperGenerated "/abs/x"])
    ∧ Command.prime_command envC8 c8b true true "/prime"
      = .ok ("epn-app.wrapper", c8c,
          [Warning.commandResolvedAfterSearch "epn-app.wrapper" "bin/epn-app.wrapper",
           Warning.commandChanged "epn-app.wrapper" "bin/epn-app.wrapper"])
    ∧ Command.prime_command envC8 c8c true true "/prime"
      = .ok ("bin/epn-app.wrapper", c8d,
          [Warning.commandResolvedAfterSearch "epn-app.wrapper" "bin/epn-app.wrapper",
           Warning.commandChanged "epn-app.wrapper" "bin/epn-app.wrapper"])
    ∧ c8d.wrapped_command ≠ none
    ∧ c8d.command ≠ c8d.wrapped_command_name :=
  ⟨rfl, rfl, rfl, by decide, by decide⟩

/-- C8 (amended): after a single finalize of a fresh entry point (no
wrapped-command recorded beforehand): if the call recorded a
wrapped-command then the resulting command text is the wrapper file
name; otherwise the resulting command text is the massaged raw text
(resp. the unchanged raw text when massaging was disabled). -/
theorem wrapped_invariant_amended : ∀ (env : Env) (c : Command) (allow msg : Bool)
    (prime_dir ret : String) (c' : Command) (w : List Warning),
    c.wrapped_command = none →
    Command.prime_command env c allow msg prime_dir = .ok (ret, c', w) →
    ((c'.wrapped_command ≠ none → c'.command = c'.wrapped_command_name)
      ∧ (c'.wrapped_command = none →
          ((msg = true →
             ∃ w1, _massage_command env c.command prime_dir = .ok (c'.command, w1))
           ∧ (msg = false → c'.command = c.command)))) := by
  intro env c allow msg prime_dir ret c' w h0 h
  rcases Bool.eq_false_or_eq_true msg with hmsg | hmsg
  · subst hmsg
    cases hm : _massage_command env c.command prime_dir with
    | error e =>
      simp [Command.prime_command, hm] at h
    | ok p =>
      rcases p with ⟨m, w1⟩
      simp only [Command.prime_command, hm, if_true] at h
      rcases Bool.eq_false_or_eq_true
          (Command.requires_wrapper { c with command := m }) with hr | hr
      · simp only [hr, if_true] at h
        rcases Bool.eq_false_or_eq_true allow with ha | ha
        · simp only [ha, Bool.not_true, Bool.false_eq_true, if_false,
            Except.ok.injEq, Prod.mk.injEq] at h
          rcases h with ⟨h1, h2, h3⟩
          subst h2
          constructor
          · intro _
            rfl
          · intro hnone
            simp at hnone
        · simp [ha] at h
      · simp only [hr, Bool.false_eq_true, if_false] at h
        cases hsp : shlexSplit true m with
        | none =>
          rw [hsp] at h
          exact Except.noConfusion h
        | some l =>
          cases l with
          | nil =>
            rw [hsp] at h
            exact Except.noConfusion h
          | cons t0 rest =>
            rw [hsp] at h
            rcases Bool.eq_false_or_eq_true
                (env.executableIsValid (pyJoin prime_dir t0)) with hex | hex
            · simp only [hex, Bool.not_true, Bool.false_eq_true, if_false,
                Except.ok.injEq, Prod.mk.injEq] at h
              rcases h with ⟨h1, h2, h3⟩
              subst h2
              constructor
              · intro hne
                exact absurd h0 hne
              · intro _
                refine ⟨fun _ => ⟨w1, rfl⟩, fun hf => Bool.noConfusion hf⟩
            · simp [hex] at h
  · subst hmsg
    rw [prime_command_no_massage] at h
    rcases Bool.eq_false_or_eq_true c.requires_wrapper with hr | hr
    · simp only [hr, if_true] at h
      rcases Bool.eq_false_or_eq_true allow with ha | ha
      · simp only [ha, Bool.not_true, Bool.false_eq_true, if_false,
          Except.ok.injEq, Prod.mk.injEq] at h
        rcases h with ⟨h1, h2, h3⟩
        subst h2
        constructor
        · intro _
          rfl
        · intro hnone
          simp at hnone
      · simp [ha] at h
    · simp only [hr, Bool.false_eq_true, if_false] at h
      cases hsp : shlexSplit true c.command with
      | none =>
        rw [hsp] at h
        exact Except.noConfusion h
      | some l =>
        cases l with
        | nil =>
          rw [hsp] at h
          exact Except.noConfusion h
        | cons t0 rest =>
          rw [hsp] at h
          rcases Bool.eq_false_or_eq_true
              (env.executableIsValid (pyJoin prime_dir t0)) with hex | hex
          · simp only [hex, Bool.not_true, Bool.false_eq_true, if_false,
              Except.ok.injEq, Prod.mk.injEq] at h
            rcases h with ⟨h1, h2, h3⟩
            subst h2
            constructor
            · intro hne
              exact absurd h0 hne
            · intro _
              refine ⟨fun hf => Bool.noConfusion hf, fun _ => rfl⟩
          · simp [hex] at h

theorem wrapped_invariant_amended_witness :
    c8a.wrapped_command = none
    ∧ Command.prime_command envC8 c8a true true "/prime"
        = .ok ("epn-app.wrapper", c8b, [Warning.snapdWrapperGenerated "/abs/x"])
    ∧ c8b.command = c8b.wrapped_command_name :=
  ⟨rfl, rfl,
   (wrapped_invariant_amended envC8 c8a true true "/prime" "epn-app.wrapper" c8b
      [Warning.snapdWrapperGenerated "/abs/x"] rfl rfl).1 (by decide)⟩

/-! ## Claim C9: normalization identity and idempotence -/

/-- C9: `_massage_command` returns any `/`-leading text unmodified, and
acts as the identity on already-canonical text: relative (no `/` or
`$SNAP/` leader on the text or its first token), single-space separated
(rejoining the tokens reproduces the text), whose first token exists
literally under the staged root and carries no interpreter directive. -/
theorem massage_identity_idempotent : ∀ (env : Env) (command prime_dir : String),
    (pyStartsWith command "/" = true →
      _massage_command env command prime_dir = .ok (command, []))
    ∧ (∀ (t0 : String) (rest : List String),
        pyStartsWith command "/" = false →
        pyStartsWith command "$SNAP/" = false →
        shlexSplit false command = some (t0 :: rest) →
        String.intercalate " " (t0 :: rest) = command →
        pyStartsWith t0 "/" = false →
        pyStartsWith t0 "$SNAP/" = false →
        env.pathExists (pyJoin prime_dir t0) = true →
        _get_shebang_from_file env (pyJoin prime_dir t0) = none →
        _massage_command env command prime_dir = .ok (command, [])) := by
  intro env command prime_dir
  constructor
  · intro h
    simp [_massage_command, h]
  · intro t0 rest h1 h2 hsp hjoin ht1 ht2 hex hsheb
    have hstrip : _strip_command_leaders t0 = t0 := by
      simp [_strip_command_leaders, ht1, ht2]
    have hsplitc : _split_command env command prime_dir = .ok ([], t0 :: rest) := by
      simp only [_split_command, hsp, hstrip, hex, if_true, hsheb]
    have hres : _resolve_snap_command_path env t0 prime_dir = (some t0, false) := by
      simp only [_resolve_snap_command_path, hstrip, hex, if_true]
    have hrescp : _resolve_command_parts env (t0 :: rest) false prime_dir
        = .ok (t0 :: rest, []) := by
      simp [_resolve_command_parts, hres]
    simp only [_massage_command, h1, Bool.false_eq_true, if_false, h2, hsplitc,
      List.isEmpty_nil, if_true, hrescp, List.nil_append, hjoin]
    simp

def envC9 : Env where
  pathExists := fun p => p == "/p/bin/foo"
  executableIsValid := fun _ => false
  fileContent := fun _ => ""
  bin_paths := fun _ => []
  walk_dirs := fun _ => []
  which := fun _ => none

theorem massage_identity_idempotent_witness :
    pyStartsWith "/abs/t" "/" = true
    ∧ _massage_command envC9 "/abs/t" "/p" = .ok ("/abs/t", [])
    ∧ shlexSplit false "bin/foo arg" = some ["bin/foo", "arg"]
    ∧ envC9.pathExists (pyJoin "/p" "bin/foo") = true
    ∧ _massage_command envC9 "bin/foo arg" "/p" = .ok ("bin/foo arg", []) :=
  ⟨by decide,
   (massage_identity_idempotent envC9 "/abs/t" "/p").1 (by decide),
   by decide, by decide,
   (massage_identity_idempotent envC9 "bin/foo arg" "/p").2 "bin/foo" ["arg"]
     (by decide) (by decide) (by decide) (by decide) (by decide) (by decide)
     (by decide) (by decide)⟩

/-! ## Claim C10: unguarded first-token indexing on empty input -/

def envC10 : Env where
  pathExists := fun _ => false
  executableIsValid := fun _ => false
  fileContent := fun _ => ""
  bin_paths := fun _ => []
  walk_dirs := fun _ => []
  which := fun _ => none

def c10e : Command := { app_name := "a", command_name := "b", command := "" }

/-- C10 counterexample: for the empty command string the non-wrapper
branch of finalize is never reached — the empty string fails the command
pattern, so `requires_wrapper` is true and finalize (massaging disabled,
wrapper disallowed) raises invalid-command-format rather than failing
out of bounds. -/
theorem empty_command_format_error_cex :
    Command.prime_command envC10 c10e false false "/p"
      = .error (.invalidAppCommandFormat "" "a")
    ∧ ¬ (Command.prime_command envC10 c10e false false "/p" = .error .indexError)
    ∧ Command.requires_wrapper c10e = true :=
  ⟨rfl,
   by
    intro hc
    rw [show Command.prime_command envC10 c10e false false "/p"
        = Except.error (CmdError.invalidAppCommandFormat "" "a") from rfl] at hc
    simp at hc,
   by decide⟩

/-- C10 (amended): the normalizer indexes the shell-split tokens without
a guard, so it fails out of bounds (IndexError) on both the empty and
the all-whitespace command; finalize's non-wrapper branch likewise fails
out of bounds on the all-whitespace command (which satisfies the
pattern), but the empty command fails the pattern, so finalize treats it
as requiring a wrapper and (when wrappers are disallowed) raises
invalid-command-format instead of indexing. -/
theorem empty_command_indexing_amended : ∀ (env : Env) (prime_dir app cn : String)
    (allow : Bool),
    _massage_command env "" prime_dir = .error .indexError
    ∧ _massage_command env " " prime_dir = .error .indexError
    ∧ Command.prime_command env ⟨app, cn, " ", none, none⟩ allow false prime_dir
        = .error .indexError
    ∧ Command.prime_command env ⟨app, cn, "", none, none⟩ false false prime_dir
        = .error (.invalidAppCommandFormat "" app)
    ∧ Command.requires_wrapper ⟨app, cn, "", none, none⟩ = true := by
  intro env prime_dir app cn allow
  exact ⟨rfl, rfl, rfl, rfl, rfl⟩
